import Mathlib

/-!
# HealthMonitor control plane

A shallow embedding of the control plane of the health monitor:

* `api/api.go` (standalone deployment) is embedded in namespace `HealthMonitor.Api`,
* `api/internal.go` (embedded deployment) in namespace `HealthMonitor.Internal`,
* `webui/webui.go` (the HTTP transport of the standalone deployment) in
  namespace `HealthMonitor.Webui`.

The monitoring modules themselves (`live`, `target`, `disk`, `ram`, `cpu`, `notify`),
`encoding/json` and the persistence layer are collaborators of the control plane;
they are taken as parameters (`Collab`) acting on an abstract world `W`.

Modelling conventions.

* A Go `[]byte` is a `List Nat`; a possibly-nil slice is an `Option Bytes`
  (`none` is `nil`).
* A Go `error` is an `Option GoError` (`none` is `nil`).
* A Go `map[string]func...` is an association list from keys to the function
  bound to the key; a function value is identified by the package it belongs to.
  Calling the zero value of a missing key is a run-time panic (`Outcome.nilFuncPanic`).
* `range` over a map visits every entry once in an unspecified order; the order
  of one execution is a parameter `order`, a permutation of the map.
* A channel send is recorded by appending the value to the list of values sent.
* `saveCalls` is a ghost log of the calls made to the entries of `ConfSaveFunc`.
-/

namespace HealthMonitor

/-- The contents of a Go byte slice. -/
abbrev Bytes := List Nat

/-- The message of a non-nil Go `error`. -/
abbrev GoError := String

/-- The packages whose functions are stored in the registries. -/
inductive Pkg where
  | live
  | target
  | disk
  | ram
  | cpu
  | notify
deriving DecidableEq, Repr

/-- The module identifier of the package. -/
def Pkg.name : Pkg → String
  | .live => "live"
  | .target => "target"
  | .disk => "disk"
  | .ram => "ram"
  | .cpu => "cpu"
  | .notify => "notify"

/-- Result of running a Go function that may panic. -/
inductive Outcome (α : Type) where
  | returned (a : α)
  | nilFuncPanic
  | indexPanic
deriving DecidableEq, Repr

/-- The three registries built by `init`: association lists from module
identifier to the function bound to it. -/
structure Registry (M : Type) where
  StatusFunc : List (String × M)
  ConfFunc : List (String × M)
  ConfSaveFunc : List (String × M)

/-- The collaborators of the control plane, acting on an abstract world `W`
(the modules' own state and the configuration database).
`unmarshalProfile data` is the `Profile` field left in `Temp` by
`json.Unmarshal(data, &Temp)`; `sprintModules` is `fmt.Sprint(utils.Modules)`. -/
structure Collab (M W : Type) where
  GetStatusJSON : M → W → Bytes
  GetConfJSON : M → W → Bytes
  SaveConfig : M → Option Bytes → String → W → W × Option GoError
  unmarshalProfile : Option Bytes → String
  GetAllProfiles : W → List String
  sprintModules : String

/-- The record `setup.ModuleState` (`UserModuleState`, `InternalModuleState`,
`ModulesStatus`). -/
structure ModuleState where
  Live : Bool
  Target : Bool
  Disk : Bool
  RAM : Bool
  CPU : Bool
  Profile : String
deriving DecidableEq, Repr

/-- The record `utils.Status` sent on the control channels. -/
structure Status where
  Module : String
  Run : Bool
deriving DecidableEq, Repr

/-- One call `function(data, profile)` of an entry of `ConfSaveFunc`:
the key it is stored under, the function, the arguments and the error returned. -/
structure SaveCall (M : Type) where
  key : String
  fn : M
  data : Option Bytes
  profile : String
  err : Option GoError
deriving DecidableEq, Repr

variable {M W : Type}

/-- The function `getProfile` of `api.go` and `internal.go`. -/
def getProfile (c : Collab M W) (data : Option Bytes) : String :=
  c.unmarshalProfile data

/-- The loop `for _, function := range ConfSaveFunc { err := function(nil, profile); ... }`
of `SaveConfig`, run over the entries in the order `order`. Returns the world after the
loop, the calls made, and the error that ended the loop (`none` when it ran to the end). -/
def rangeSave (c : Collab M W) (profile : String) :
    List (String × M) → W → W × List (SaveCall M) × Option GoError
  | [], w => (w, [], none)
  | (k, f) :: rest, w =>
    match c.SaveConfig f none profile w with
    | (w1, some e) => (w1, [⟨k, f, none, profile, some e⟩], some e)
    | (w1, none) =>
      let r := rangeSave c profile rest w1
      (r.1, ⟨k, f, none, profile, none⟩ :: r.2.1, r.2.2)

/-! ## `api/api.go` -/

namespace Api

/-- The package state of the standalone deployment: the desired state
`setup.UserModuleState`, the actual state `setup.InternalModuleState`, the values sent on
`utils.RestartModules`, the world of the collaborators and the ghost log of save calls. -/
structure State (M W : Type) where
  UserModuleState : ModuleState
  InternalModuleState : ModuleState
  RestartModules : List Status
  world : W
  saveCalls : List (SaveCall M)

/-- The registries built by `init` in `api.go`. -/
def init : Registry Pkg where
  StatusFunc := [("live", .live), ("target", .target), ("disk", .disk), ("ram", .ram),
    ("cpu", .cpu)]
  ConfFunc := [("live", .live), ("target", .target), ("disk", .disk), ("ram", .ram),
    ("cpu", .cpu), ("notify", .notify)]
  ConfSaveFunc := [("live", .live), ("target", .target), ("disk", .disk), ("ram", .ram),
    ("cpu", .cpu), ("notify", .notify)]

/-- The function `GetStatusJSON`: `return StatusFunc[module]()`. -/
def GetStatusJSON (c : Collab M W) (reg : Registry M) (module : String) (s : State M W) :
    Outcome Bytes :=
  match reg.StatusFunc.lookup module with
  | none => .nilFuncPanic
  | some f => .returned (c.GetStatusJSON f s.world)

/-- The function `GetConfJSON`: `return ConfFunc[module]()`. -/
def GetConfJSON (c : Collab M W) (reg : Registry M) (module : String) (s : State M W) :
    Outcome Bytes :=
  match reg.ConfFunc.lookup module with
  | none => .nilFuncPanic
  | some f => .returned (c.GetConfJSON f s.world)

/-- The function `SaveConfig` of `api.go`. `order` is the order in which the `range`
statement visits `ConfSaveFunc` in this execution. -/
def SaveConfig (c : Collab M W) (reg : Registry M) (order : List (String × M))
    (module : String) (data : Option Bytes) (s : State M W) :
    Outcome (State M W × Option GoError) :=
  let profile := getProfile c data
  match reg.ConfSaveFunc.lookup module with
  | none => .nilFuncPanic
  | some f =>
    let r := c.SaveConfig f data profile s.world
    let s1 : State M W := { s with
      world := r.1
      saveCalls := s.saveCalls ++ [⟨module, f, data, profile, r.2⟩] }
    let s2 : State M W := { s1 with
      RestartModules := s1.RestartModules ++ [⟨module, false⟩] }
    if profile = s2.UserModuleState.Profile then
      .returned (s2, r.2)
    else
      let l := rangeSave c profile order s2.world
      let s3 : State M W := { s2 with world := l.1, saveCalls := s2.saveCalls ++ l.2.1 }
      match l.2.2 with
      | some e => .returned (s3, some e)
      | none =>
        .returned ({ s3 with UserModuleState := { s3.UserModuleState with Profile := profile } },
          none)

/-- Modelled from the spec: `utils.SendModuleStatus`, `utils.AddOWTFModuleDependence` and
`utils.RemoveOWTFModuleDependence` are not part of the sources. Following the spec, the
dependency hook does not touch the state tracked here and `SendModuleStatus(module, status)`
emits the Signal `{module, status}` on the signal bus. -/
def SendModuleStatus (module : String) (status : Bool) (s : State M W) : State M W :=
  { s with RestartModules := s.RestartModules ++ [⟨module, status⟩] }

/-- The function `ChangeModuleStatus` of `api.go`. -/
def ChangeModuleStatus (module : String) (status : Bool) (s : State M W) : State M W :=
  if module = "live" then
    SendModuleStatus module status
      { s with UserModuleState := { s.UserModuleState with Live := status } }
  else if module = "target" then
    SendModuleStatus module status
      { s with UserModuleState := { s.UserModuleState with Target := status } }
  else if module = "disk" then
    SendModuleStatus module status
      { s with UserModuleState := { s.UserModuleState with Disk := status } }
  else if module = "inode" then
    SendModuleStatus module status
      { s with UserModuleState := { s.UserModuleState with Disk := status } }
  else if module = "ram" then
    SendModuleStatus module status
      { s with UserModuleState := { s.UserModuleState with RAM := status } }
  else if module = "cpu" then
    SendModuleStatus module status
      { s with UserModuleState := { s.UserModuleState with CPU := status } }
  else s

/-- The function `ModuleStatus` of `api.go`. -/
def ModuleStatus (module : String) (s : State M W) : Bool :=
  if module = "live" then s.InternalModuleState.Live
  else if module = "target" then s.InternalModuleState.Target
  else if module = "disk" then s.InternalModuleState.Disk
  else if module = "inode" then s.InternalModuleState.Disk
  else if module = "ram" then s.InternalModuleState.RAM
  else if module = "cpu" then s.InternalModuleState.CPU
  else false

/-- The loop of `LoadNewProfile` over the profiles still to be visited. -/
def loadLoop (c : Collab M W) (profile : String) (s : State M W) :
    List String → State M W × Option GoError
  | [] => (s, some ("Specified module not found, allowed modules " ++ c.sprintModules))
  | profiles :: rest =>
    if profiles = profile then
      ({ s with
          UserModuleState := { s.UserModuleState with Profile := profile }
          RestartModules := s.RestartModules ++ [⟨"all", true⟩] }, none)
    else loadLoop c profile s rest

/-- The function `LoadNewProfile`. -/
def LoadNewProfile (c : Collab M W) (profile : String) (s : State M W) :
    State M W × Option GoError :=
  loadLoop c profile s (c.GetAllProfiles s.world)

/-- The function `GetAllProfiles`. -/
def GetAllProfiles (c : Collab M W) (s : State M W) : List String :=
  c.GetAllProfiles s.world

/-- The function `GetActiveProfile`. -/
def GetActiveProfile (s : State M W) : String :=
  s.UserModuleState.Profile

end Api

/-! ## `api/internal.go` -/

namespace Internal

/-- The package state of the embedded deployment: the single record `setup.ModulesStatus`,
the values sent on `ControlChan`, the world of the collaborators and the ghost log of
save calls. -/
structure State (M W : Type) where
  ModulesStatus : ModuleState
  ControlChan : List Status
  world : W
  saveCalls : List (SaveCall M)

/-- The registries built by `init` in `internal.go`. -/
def init : Registry Pkg where
  StatusFunc := [("live", .live), ("disk", .disk), ("ram", .ram)]
  ConfFunc := [("live", .live), ("disk", .disk), ("ram", .ram)]
  ConfSaveFunc := [("live", .live), ("disk", .disk), ("ram", .disk)]

/-- The function `GetStatusJSON`: `return StatusFunc[module]()`. -/
def GetStatusJSON (c : Collab M W) (reg : Registry M) (module : String) (s : State M W) :
    Outcome Bytes :=
  match reg.StatusFunc.lookup module with
  | none => .nilFuncPanic
  | some f => .returned (c.GetStatusJSON f s.world)

/-- The function `GetConfJSON`: `return ConfFunc[module]()`. -/
def GetConfJSON (c : Collab M W) (reg : Registry M) (module : String) (s : State M W) :
    Outcome Bytes :=
  match reg.ConfFunc.lookup module with
  | none => .nilFuncPanic
  | some f => .returned (c.GetConfJSON f s.world)

/-- The function `SaveConfig` of `internal.go`. `order` is the order in which the `range`
statement visits `ConfSaveFunc` in this execution. -/
def SaveConfig (c : Collab M W) (reg : Registry M) (order : List (String × M))
    (module : String) (data : Option Bytes) (s : State M W) :
    Outcome (State M W × Option GoError) :=
  let profile := getProfile c data
  match reg.ConfSaveFunc.lookup module with
  | none => .nilFuncPanic
  | some f =>
    let r := c.SaveConfig f data profile s.world
    let s1 : State M W := { s with
      world := r.1
      saveCalls := s.saveCalls ++ [⟨module, f, data, profile, r.2⟩] }
    if profile = s1.ModulesStatus.Profile then
      .returned (s1, r.2)
    else
      let l := rangeSave c profile order s1.world
      let s3 : State M W := { s1 with world := l.1, saveCalls := s1.saveCalls ++ l.2.1 }
      match l.2.2 with
      | some e => .returned (s3, some e)
      | none =>
        .returned ({ s3 with ModulesStatus := { s3.ModulesStatus with Profile := profile } },
          none)

/-- The function `ChangeModuleStatus` of `internal.go`. -/
def ChangeModuleStatus (module : String) (status : Bool) (s : State M W) : State M W :=
  { s with ControlChan := s.ControlChan ++ [⟨module, status⟩] }

/-- The function `ModuleStatus` of `internal.go`. -/
def ModuleStatus (module : String) (s : State M W) : Bool :=
  if module = "live" then s.ModulesStatus.Live
  else if module = "target" then s.ModulesStatus.Target
  else if module = "disk" then s.ModulesStatus.Disk
  else if module = "inode" then s.ModulesStatus.Disk
  else if module = "ram" then s.ModulesStatus.RAM
  else false

end Internal

/-! ## `webui/webui.go` -/

namespace Webui

/-- The parts of a `fasthttp.RequestCtx` read by the handlers: `ctx.Path()`,
`ctx.IsPost()` and `ctx.PostBody()`. -/
structure Request where
  path : String
  isPost : Bool
  postBody : Bytes

/-- What a handler writes to the response. `statusJSON m body` is the response
`application/json` with body `api.GetStatusJSON(m)`, `confJSON m body` the one with body
`api.GetConfJSON(m)`. `render`, `staticFile`, `template` and `settingProfile` stand for the
pages produced from files by `render`, `staticHandler`, the module template handlers and
`settingProfileHandler`. -/
inductive Response where
  | render (tmpl : String)
  | staticFile (filePath : String)
  | statusJSON (module : String) (body : Bytes)
  | confJSON (module : String) (body : Bytes)
  | template (tmpl : String)
  | settingProfile
  | statusOK
  | statusAccepted
  | statusBadRequest
  | notFound
deriving DecidableEq, Repr

/-- Go's `strings.SplitN(s, sep, n)` for a one-character separator and `n ≥ 0`: at most
`n` pieces, the last one being the unsplit remainder. -/
def splitN (sep : Char) : Nat → List Char → List (List Char)
  | 0, _ => []
  | 1, s => [s]
  | n + 2, s =>
    match s.span (fun ch => ch != sep) with
    | (_, []) => [s]
    | (pre, _ :: rest) => pre :: splitN sep (n + 1) rest

/-- The call `strings.SplitN(string(ctx.Path()), "/", 3)`. -/
def SplitN (s : String) (sep : Char) (n : Nat) : List String :=
  (splitN sep n s.toList).map String.mk

/-- The function `statusHandler`. -/
def statusHandler (c : Collab M W) (reg : Registry M) (module : String)
    (s : Api.State M W) : Outcome (Api.State M W × Response) :=
  if (reg.StatusFunc.lookup module).isSome then
    match Api.GetStatusJSON c reg module s with
    | .returned body => .returned (s, .statusJSON module body)
    | .nilFuncPanic => .nilFuncPanic
    | .indexPanic => .indexPanic
  else .returned (s, .notFound)

/-- The function `configHandler`. -/
def configHandler (c : Collab M W) (reg : Registry M) (order : List (String × M))
    (req : Request) (module : String) (s : Api.State M W) :
    Outcome (Api.State M W × Response) :=
  if req.isPost then
    if (reg.ConfSaveFunc.lookup module).isSome then
      match Api.SaveConfig c reg order module (some req.postBody) s with
      | .returned (s1, some _) => .returned (s1, .statusBadRequest)
      | .returned (s1, none) => .returned (s1, .statusOK)
      | .nilFuncPanic => .nilFuncPanic
      | .indexPanic => .indexPanic
    else .returned (s, .notFound)
  else if (reg.ConfFunc.lookup module).isSome then
    match Api.GetConfJSON c reg module s with
    | .returned body => .returned (s, .confJSON module body)
    | .nilFuncPanic => .nilFuncPanic
    | .indexPanic => .indexPanic
  else .returned (s, .notFound)

/-- The function `templateHandler`. -/
def templateHandler (tmpl : String) : Response :=
  if tmpl = "live" ∨ tmpl = "disk" ∨ tmpl = "inode" ∨ tmpl = "ram" ∨ tmpl = "cpu"
      ∨ tmpl = "target" then .template tmpl
  else .notFound

/-- The function `moduleStatusHandler`; the bodies `"1"` and `"0"` are the bytes 49 and 48. -/
def moduleStatusHandler (req : Request) (module : String) (s : Api.State M W) :
    Api.State M W × Response :=
  if req.postBody = [49] then (Api.ChangeModuleStatus module true s, .statusAccepted)
  else if req.postBody = [48] then (Api.ChangeModuleStatus module false s, .statusAccepted)
  else (s, .notFound)

/-- The function `profileHandler`; the profile name is `string(ctx.PostBody())`, decoded
by `bodyString`. The status code set last on the POST path is always `StatusOK`. -/
def profileHandler (c : Collab M W) (bodyString : Bytes → String) (req : Request)
    (s : Api.State M W) : Api.State M W × Response :=
  if req.isPost then ((Api.LoadNewProfile c (bodyString req.postBody) s).1, .statusOK)
  else (s, .settingProfile)

/-- The index expression `tempPath[i]`, which panics when `i` is out of range. -/
def index (tempPath : List String) (i : Nat) : Outcome String :=
  match tempPath[i]? with
  | some x => .returned x
  | none => .indexPanic

/-- Sequencing of a computation that may panic. -/
def andThen {α β : Type} (o : Outcome α) (k : α → Outcome β) : Outcome β :=
  match o with
  | .returned a => k a
  | .nilFuncPanic => .nilFuncPanic
  | .indexPanic => .indexPanic

/-- The function `requestHandler`. -/
def requestHandler (c : Collab M W) (reg : Registry M) (order : List (String × M))
    (bodyString : Bytes → String) (req : Request) (s : Api.State M W) :
    Outcome (Api.State M W × Response) :=
  let tempPath := SplitN req.path '/' 3
  if tempPath.length = 2 then .returned (s, .render "index.html")
  else
    andThen (index tempPath 1) fun t1 =>
      if t1 = "static" then
        andThen (index tempPath 2) fun t2 => .returned (s, .staticFile t2)
      else if t1 = "settings" then
        andThen (index tempPath 2) fun t2 => configHandler c reg order req t2 s
      else if t1 = "preferences" then .returned (s, .render "settings.html")
      else if t1 = "description" then
        andThen (index tempPath 2) fun t2 =>
          if t2.endsWith "html" then .returned (s, .render t2)
          else .returned (s, .render (t2 ++ "-setting"))
      else if t1 = "moduleStatus" then
        andThen (index tempPath 2) fun t2 => .returned (moduleStatusHandler req t2 s)
      else if t1 = "profile" then .returned (profileHandler c bodyString req s)
      else
        andThen (index tempPath 2) fun t2 =>
          if Api.ModuleStatus t2 s || t2 = "main" then
            if t1 = "module" then statusHandler c reg t2 s
            else if t1 = "template" then .returned (s, templateHandler t2)
            else .returned (s, .notFound)
          else .returned (s, .notFound)

end Webui

/-! ## Sample collaborators

A concrete world used to run the embedding on explicit inputs: the world counts the
successful saves, a payload whose first byte is `1` (`2`) carries the profile `"P1"`
(`"P2"`), and `fails f data` tells which save calls return an error. -/

/-- The profile carried by a sample payload. -/
def sampleProfile : Option Bytes → String
  | some (1 :: _) => "P1"
  | some (2 :: _) => "P2"
  | _ => ""

/-- The sample collaborators, with the save calls selected by `fails` returning an error. -/
def sampleCollab (fails : Pkg → Option Bytes → Bool) : Collab Pkg Nat where
  GetStatusJSON := fun f w => [0, f.toCtorIdx, w]
  GetConfJSON := fun f w => [1, f.toCtorIdx, w]
  SaveConfig := fun f data _ w =>
    if fails f data then (w, some "save failed") else (w + 1, none)
  unmarshalProfile := sampleProfile
  GetAllProfiles := fun _ => ["P1", "P2"]
  sprintModules := "[live target disk ram cpu]"

/-- No save call fails. -/
def noFailure : Pkg → Option Bytes → Bool := fun _ _ => false

/-- The save of `live` rejects every non-nil payload. -/
def liveRejectsData : Pkg → Option Bytes → Bool
  | .live, some _ => true
  | _, _ => false

/-- The save of `disk` fails when asked to activate stored data (nil payload). -/
def diskCascadeFails : Pkg → Option Bytes → Bool
  | .disk, none => true
  | _, _ => false

/-- The save of `ram` fails on every call. -/
def ramSaveFails : Pkg → Option Bytes → Bool
  | .ram, _ => true
  | _, _ => false

/-- A state of the standalone deployment: only `live` runs, the active profile is `"P1"`
and every module of `Api.init` has last loaded `"P1"`. -/
def sampleState : Api.State Pkg Nat where
  UserModuleState := ⟨true, false, false, false, false, "P1"⟩
  InternalModuleState := ⟨true, false, false, false, false, "P1"⟩
  RestartModules := []
  world := 0
  saveCalls := Api.init.ConfSaveFunc.map fun e => ⟨e.1, e.2, none, "P1", none⟩

/-- A state of the embedded deployment with active profile `"P1"`. -/
def sampleInternalState : Internal.State Pkg Nat where
  ModulesStatus := ⟨true, false, false, false, false, "P1"⟩
  ControlChan := []
  world := 0
  saveCalls := []

/-- The successful cascade call made for the entry `e` of `ConfSaveFunc`. -/
def okCall (profile : String) (e : String × M) : SaveCall M :=
  ⟨e.1, e.2, none, profile, none⟩

/-! ## Profile consistency -/

/-- The profile passed to the last successful save call of the function `f` in the log
`calls`: the profile whose data the module last successfully loaded. -/
def lastLoaded [DecidableEq M] (calls : List (SaveCall M)) (f : M) : Option String :=
  ((calls.filter fun call => decide (call.fn = f) && call.err.isNone).getLast?).map
    fun call => call.profile

/-- The active profile name of the desired state equals the profile that every registered
module last successfully loaded through its save operation. -/
def ProfileConsistent [DecidableEq M] (reg : Registry M) (s : Api.State M W) : Prop :=
  ∀ e ∈ reg.ConfSaveFunc, lastLoaded s.saveCalls e.2 = some s.UserModuleState.Profile

/-! ## The cascade loop -/

theorem rangeSave_of_none (c : Collab M W) (profile : String) (order : List (String × M))
    (w : W) (h : (rangeSave c profile order w).2.2 = none) :
    (rangeSave c profile order w).2.1 = order.map (okCall profile) := by
  induction order generalizing w with
  | nil => simp [rangeSave]
  | cons e rest ih =>
    obtain ⟨k, f⟩ := e
    rcases hs : c.SaveConfig f none profile w with ⟨w1, _ | e⟩
    · simp only [rangeSave, hs] at h ⊢
      simp [ih w1 h, okCall]
    · simp [rangeSave, hs] at h

theorem rangeSave_of_some (c : Collab M W) (profile : String) (order : List (String × M))
    (w : W) (e : GoError) (h : (rangeSave c profile order w).2.2 = some e) :
    ∃ pre k f post, order = pre ++ (k, f) :: post ∧
      (rangeSave c profile order w).2.1
        = pre.map (okCall profile) ++ [⟨k, f, none, profile, some e⟩] := by
  induction order generalizing w with
  | nil => simp [rangeSave] at h
  | cons x rest ih =>
    obtain ⟨k, f⟩ := x
    rcases hs : c.SaveConfig f none profile w with ⟨w1, _ | e1⟩
    · simp only [rangeSave, hs] at h ⊢
      obtain ⟨pre, k1, f1, post, ho, hc⟩ := ih w1 h
      exact ⟨(k, f) :: pre, k1, f1, post, by simp [ho], by simp [hc, okCall]⟩
    · simp only [rangeSave, hs] at h ⊢
      cases h
      exact ⟨[], k, f, rest, by simp, by simp⟩

/-- Every call made by the cascade loop passes `nil` data and the new profile. -/
theorem rangeSave_call_args (c : Collab M W) (profile : String) (order : List (String × M))
    (w : W) : ∀ call ∈ (rangeSave c profile order w).2.1,
      call.data = none ∧ call.profile = profile ∧ (call.key, call.fn) ∈ order := by
  induction order generalizing w with
  | nil => simp [rangeSave]
  | cons x rest ih =>
    obtain ⟨k, f⟩ := x
    rcases hs : c.SaveConfig f none profile w with ⟨w1, _ | e1⟩
    · simp only [rangeSave, hs]
      intro call hcall
      rcases List.mem_cons.1 hcall with rfl | hmem
      · simp
      · obtain ⟨h1, h2, h3⟩ := ih w1 call hmem
        exact ⟨h1, h2, List.mem_cons_of_mem _ h3⟩
    · simp only [rangeSave, hs]
      intro call hcall
      rcases List.mem_singleton.1 hcall with rfl
      simp

/-- The error returned by the cascade loop is the error of the last call made,
and every earlier call succeeded. -/
theorem rangeSave_failed_call_last (c : Collab M W) (profile : String)
    (order : List (String × M)) (w : W) (pre post : List (SaveCall M)) (call : SaveCall M)
    (hsplit : (rangeSave c profile order w).2.1 = pre ++ call :: post)
    (hfail : call.err ≠ none) :
    (rangeSave c profile order w).2.2 = call.err ∧ post = [] := by
  rcases hr : (rangeSave c profile order w).2.2 with _ | e
  · have hmap := rangeSave_of_none c profile order w hr
    have hmem : call ∈ order.map (okCall profile) := by
      rw [← hmap, hsplit]; simp
    obtain ⟨x, _, rfl⟩ := List.mem_map.1 hmem
    exact absurd rfl hfail
  · obtain ⟨p, k, f, q, _, hc⟩ := rangeSave_of_some c profile order w e hr
    rw [hsplit] at hc
    have hpost : post = [] := by
      rcases List.eq_nil_or_concat post with hn | ⟨init, last, rfl⟩
      · exact hn
      · exfalso
        have h2 : (pre ++ [call] ++ init) ++ [last]
            = List.map (okCall profile) p ++ [⟨k, f, none, profile, some e⟩] := by
          simpa using hc
        obtain ⟨h3, _⟩ := List.append_inj' h2 rfl
        have hmem : call ∈ List.map (okCall profile) p := by
          rw [← h3]; simp
        obtain ⟨x, _, rfl⟩ := List.mem_map.1 hmem
        exact hfail rfl
    subst hpost
    obtain ⟨_, h4⟩ := List.append_inj' hc rfl
    simp at h4
    subst h4
    exact ⟨rfl, rfl⟩

theorem mem_of_lookup_eq_some {l : List (String × M)} {k : String} {f : M}
    (h : l.lookup k = some f) : (k, f) ∈ l := by
  induction l with
  | nil => simp at h
  | cons x rest ih =>
    obtain ⟨k1, f1⟩ := x
    rw [List.lookup_cons] at h
    by_cases hk : k == k1
    · simp only [hk] at h
      have hk1 : k = k1 := by simpa using hk
      cases h
      simp [hk1]
    · simp only [hk] at h
      exact List.mem_cons_of_mem _ (ih h)

/-! ## `SaveConfig` of `api.go` -/

theorem saveConfig_same_api (c : Collab M W) (reg : Registry M) (order : List (String × M))
    (module : String) (data : Option Bytes) (s : Api.State M W) (f : M)
    (hreg : reg.ConfSaveFunc.lookup module = some f)
    (hsame : getProfile c data = s.UserModuleState.Profile) :
    Api.SaveConfig c reg order module data s = .returned
      ({ s with
          world := (c.SaveConfig f data (getProfile c data) s.world).1
          saveCalls := s.saveCalls ++ [⟨module, f, data, getProfile c data,
            (c.SaveConfig f data (getProfile c data) s.world).2⟩]
          RestartModules := s.RestartModules ++ [⟨module, false⟩] },
       (c.SaveConfig f data (getProfile c data) s.world).2) := by
  simp [Api.SaveConfig, hreg, hsame]

theorem saveConfig_switch_api (c : Collab M W) (reg : Registry M) (order : List (String × M))
    (module : String) (data : Option Bytes) (s : Api.State M W) (f : M)
    (hreg : reg.ConfSaveFunc.lookup module = some f)
    (hne : getProfile c data ≠ s.UserModuleState.Profile) :
    ∃ s', Api.SaveConfig c reg order module data s = .returned (s',
        (rangeSave c (getProfile c data) order
          (c.SaveConfig f data (getProfile c data) s.world).1).2.2) ∧
      s'.saveCalls = s.saveCalls ++ ⟨module, f, data, getProfile c data,
          (c.SaveConfig f data (getProfile c data) s.world).2⟩ ::
        (rangeSave c (getProfile c data) order
          (c.SaveConfig f data (getProfile c data) s.world).1).2.1 ∧
      ((rangeSave c (getProfile c data) order
          (c.SaveConfig f data (getProfile c data) s.world).1).2.2 = none →
        s'.UserModuleState.Profile = getProfile c data) ∧
      ((rangeSave c (getProfile c data) order
          (c.SaveConfig f data (getProfile c data) s.world).1).2.2 ≠ none →
        s'.UserModuleState = s.UserModuleState) := by
  rcases hl : (rangeSave c (getProfile c data) order
      (c.SaveConfig f data (getProfile c data) s.world).1).2.2 with _ | e
  · refine ⟨{ s with
        world := (rangeSave c (getProfile c data) order
          (c.SaveConfig f data (getProfile c data) s.world).1).1
        saveCalls := (s.saveCalls ++ [⟨module, f, data, getProfile c data,
          (c.SaveConfig f data (getProfile c data) s.world).2⟩]) ++
          (rangeSave c (getProfile c data) order
            (c.SaveConfig f data (getProfile c data) s.world).1).2.1
        RestartModules := s.RestartModules ++ [⟨module, false⟩]
        UserModuleState := { s.UserModuleState with Profile := getProfile c data } },
      ?_, ?_, ?_, ?_⟩
    · simp only [Api.SaveConfig, hreg, hne, if_false, hl]
    · simp
    · simp
    · simp
  · refine ⟨{ s with
        world := (rangeSave c (getProfile c data) order
          (c.SaveConfig f data (getProfile c data) s.world).1).1
        saveCalls := (s.saveCalls ++ [⟨module, f, data, getProfile c data,
          (c.SaveConfig f data (getProfile c data) s.world).2⟩]) ++
          (rangeSave c (getProfile c data) order
            (c.SaveConfig f data (getProfile c data) s.world).1).2.1
        RestartModules := s.RestartModules ++ [⟨module, false⟩] },
      ?_, ?_, ?_, ?_⟩
    · simp only [Api.SaveConfig, hreg, hne, if_false, hl]
    · simp
    · simp
    · simp

/-! ## `SaveConfig` of `internal.go` -/

theorem saveConfig_same_internal (c : Collab M W) (reg : Registry M)
    (order : List (String × M)) (module : String) (data : Option Bytes)
    (s : Internal.State M W) (f : M)
    (hreg : reg.ConfSaveFunc.lookup module = some f)
    (hsame : getProfile c data = s.ModulesStatus.Profile) :
    Internal.SaveConfig c reg order module data s = .returned
      ({ s with
          world := (c.SaveConfig f data (getProfile c data) s.world).1
          saveCalls := s.saveCalls ++ [⟨module, f, data, getProfile c data,
            (c.SaveConfig f data (getProfile c data) s.world).2⟩] },
       (c.SaveConfig f data (getProfile c data) s.world).2) := by
  simp [Internal.SaveConfig, hreg, hsame]

theorem saveConfig_switch_internal (c : Collab M W) (reg : Registry M)
    (order : List (String × M)) (module : String) (data : Option Bytes)
    (s : Internal.State M W) (f : M)
    (hreg : reg.ConfSaveFunc.lookup module = some f)
    (hne : getProfile c data ≠ s.ModulesStatus.Profile) :
    ∃ s', Internal.SaveConfig c reg order module data s = .returned (s',
        (rangeSave c (getProfile c data) order
          (c.SaveConfig f data (getProfile c data) s.world).1).2.2) ∧
      s'.saveCalls = s.saveCalls ++ ⟨module, f, data, getProfile c data,
          (c.SaveConfig f data (getProfile c data) s.world).2⟩ ::
        (rangeSave c (getProfile c data) order
          (c.SaveConfig f data (getProfile c data) s.world).1).2.1 ∧
      ((rangeSave c (getProfile c data) order
          (c.SaveConfig f data (getProfile c data) s.world).1).2.2 = none →
        s'.ModulesStatus.Profile = getProfile c data) ∧
      ((rangeSave c (getProfile c data) order
          (c.SaveConfig f data (getProfile c data) s.world).1).2.2 ≠ none →
        s'.ModulesStatus = s.ModulesStatus) := by
  rcases hl : (rangeSave c (getProfile c data) order
      (c.SaveConfig f data (getProfile c data) s.world).1).2.2 with _ | e
  · refine ⟨{ s with
        world := (rangeSave c (getProfile c data) order
          (c.SaveConfig f data (getProfile c data) s.world).1).1
        saveCalls := (s.saveCalls ++ [⟨module, f, data, getProfile c data,
          (c.SaveConfig f data (getProfile c data) s.world).2⟩]) ++
          (rangeSave c (getProfile c data) order
            (c.SaveConfig f data (getProfile c data) s.world).1).2.1
        ModulesStatus := { s.ModulesStatus with Profile := getProfile c data } },
      ?_, ?_, ?_, ?_⟩
    · simp only [Internal.SaveConfig, hreg, hne, if_false, hl]
    · simp
    · simp
    · simp
  · refine ⟨{ s with
        world := (rangeSave c (getProfile c data) order
          (c.SaveConfig f data (getProfile c data) s.world).1).1
        saveCalls := (s.saveCalls ++ [⟨module, f, data, getProfile c data,
          (c.SaveConfig f data (getProfile c data) s.world).2⟩]) ++
          (rangeSave c (getProfile c data) order
            (c.SaveConfig f data (getProfile c data) s.world).1).2.1 },
      ?_, ?_, ?_, ?_⟩
    · simp only [Internal.SaveConfig, hreg, hne, if_false, hl]
    · simp
    · simp
    · simp

/-- C3. Profile switch cascade (`api.go`): when `A`, `B`, `C` are registered, the payload's
profile differs from the active one, and the range statement visits the registry in any order
`order`, `SaveConfig(A, data)` returns; if every save call it made succeeded, then
`save(nil, P2)` was called on `B` and on `C`, the result is nil and the active profile is the
payload's profile `P2`. -/
theorem saveConfig_profile_switch_cascade (c : Collab M W) (reg : Registry M)
    (order : List (String × M)) (A B C : String) (fA fB fC : M) (data : Option Bytes)
    (s : Api.State M W)
    (hperm : order.Perm reg.ConfSaveFunc)
    (hA : reg.ConfSaveFunc.lookup A = some fA)
    (hB : reg.ConfSaveFunc.lookup B = some fB)
    (hC : reg.ConfSaveFunc.lookup C = some fC)
    (hne : getProfile c data ≠ Api.GetActiveProfile s) :
    ∃ s' r, Api.SaveConfig c reg order A data s = .returned (s', r) ∧
      ((∀ call ∈ s'.saveCalls.drop s.saveCalls.length, call.err = none) →
        (⟨B, fB, none, getProfile c data, none⟩ : SaveCall M)
            ∈ s'.saveCalls.drop s.saveCalls.length ∧
        (⟨C, fC, none, getProfile c data, none⟩ : SaveCall M)
            ∈ s'.saveCalls.drop s.saveCalls.length ∧
        r = none ∧ Api.GetActiveProfile s' = getProfile c data) := by
  obtain ⟨s', hrun, hcalls, hprof, _⟩ := saveConfig_switch_api c reg order A data s fA hA hne
  refine ⟨s', _, hrun, ?_⟩
  intro hall
  rw [hcalls, List.drop_left] at hall ⊢
  have hnone : (rangeSave c (getProfile c data) order
      (c.SaveConfig fA data (getProfile c data) s.world).1).2.2 = none := by
    rcases hl : (rangeSave c (getProfile c data) order
      (c.SaveConfig fA data (getProfile c data) s.world).1).2.2 with _ | e
    · rfl
    · obtain ⟨pre, k, f, post, _, hc⟩ := rangeSave_of_some c _ order _ e hl
      have := hall ⟨k, f, none, getProfile c data, some e⟩ (by rw [hc]; simp)
      simp at this
  have hmap := rangeSave_of_none c _ order _ hnone
  have hmemB : (B, fB) ∈ order := (hperm.mem_iff).2 (mem_of_lookup_eq_some hB)
  have hmemC : (C, fC) ∈ order := (hperm.mem_iff).2 (mem_of_lookup_eq_some hC)
  refine ⟨?_, ?_, hnone, hprof hnone⟩
  · rw [hmap]
    exact List.mem_cons_of_mem _ (List.mem_map.2 ⟨(B, fB), hmemB, rfl⟩)
  · rw [hmap]
    exact List.mem_cons_of_mem _ (List.mem_map.2 ⟨(C, fC), hmemC, rfl⟩)

/-- Instance of C3: registry of `api.go`, active profile `"P1"`, payload with profile `"P2"`,
no failing save; `A`, `B`, `C` are `live`, `disk`, `ram`. -/
theorem saveConfig_profile_switch_cascade_witness :
    ∃ s' r, Api.SaveConfig (sampleCollab noFailure) Api.init Api.init.ConfSaveFunc.reverse
        "live" (some [2]) sampleState = .returned (s', r) ∧
      (⟨"disk", Pkg.disk, none, "P2", none⟩ : SaveCall Pkg)
        ∈ s'.saveCalls.drop sampleState.saveCalls.length ∧
      (⟨"ram", Pkg.ram, none, "P2", none⟩ : SaveCall Pkg)
        ∈ s'.saveCalls.drop sampleState.saveCalls.length ∧
      r = none ∧ Api.GetActiveProfile s' = "P2" := by
  obtain ⟨s', r, hrun, h⟩ := saveConfig_profile_switch_cascade (sampleCollab noFailure)
    Api.init Api.init.ConfSaveFunc.reverse "live" "disk" "ram" Pkg.live Pkg.disk Pkg.ram
    (some [2]) sampleState (List.reverse_perm _) (by decide) (by decide) (by decide)
    (by decide)
  refine ⟨s', r, hrun, ?_⟩
  have hval := Outcome.returned.inj (hrun.symm.trans
    (rfl : Api.SaveConfig (sampleCollab noFailure) Api.init Api.init.ConfSaveFunc.reverse
        "live" (some [2]) sampleState = .returned _))
  obtain ⟨rfl, rfl⟩ := Prod.mk.inj hval
  exact h (by decide)

/-- C4. Partial failure (`api.go` and `internal.go`): when the payload's profile differs from the
active one, `SaveConfig` on a registered module returns, for every order in which the registry
is visited; if one of the cascade calls (the calls after the module's own save) failed, then
its error is the result, it is the last call made, and the active profile is unchanged. -/
theorem saveConfig_cascade_failure (c : Collab M W) (reg : Registry M)
    (order : List (String × M)) (module : String) (f : M) (data : Option Bytes)
    (s : Api.State M W) (t : Internal.State M W)
    (hreg : reg.ConfSaveFunc.lookup module = some f)
    (hs : getProfile c data ≠ Api.GetActiveProfile s)
    (ht : getProfile c data ≠ t.ModulesStatus.Profile) :
    (∃ s' r, Api.SaveConfig c reg order module data s = .returned (s', r) ∧
      ∀ pre call post, s'.saveCalls.drop (s.saveCalls.length + 1) = pre ++ call :: post →
        call.err ≠ none →
        r = call.err ∧ post = [] ∧ Api.GetActiveProfile s' = Api.GetActiveProfile s) ∧
    (∃ t' r, Internal.SaveConfig c reg order module data t = .returned (t', r) ∧
      ∀ pre call post, t'.saveCalls.drop (t.saveCalls.length + 1) = pre ++ call :: post →
        call.err ≠ none →
        r = call.err ∧ post = [] ∧ t'.ModulesStatus.Profile = t.ModulesStatus.Profile) := by
  constructor
  · obtain ⟨s', hrun, hcalls, _, hkeep⟩ :=
      saveConfig_switch_api c reg order module data s f hreg hs
    refine ⟨s', _, hrun, ?_⟩
    intro pre call post hsplit hfail
    have hdrop : s'.saveCalls.drop (s.saveCalls.length + 1)
        = (rangeSave c (getProfile c data) order
            (c.SaveConfig f data (getProfile c data) s.world).1).2.1 := by
      rw [hcalls, ← List.drop_drop, List.drop_left]
      rfl
    rw [hdrop] at hsplit
    obtain ⟨h1, h2⟩ := rangeSave_failed_call_last c _ order _ pre post call hsplit hfail
    refine ⟨h1, h2, ?_⟩
    have hne : (rangeSave c (getProfile c data) order
        (c.SaveConfig f data (getProfile c data) s.world).1).2.2 ≠ none := by
      rw [h1]; exact hfail
    simp [Api.GetActiveProfile, hkeep hne]
  · obtain ⟨t', hrun, hcalls, _, hkeep⟩ :=
      saveConfig_switch_internal c reg order module data t f hreg ht
    refine ⟨t', _, hrun, ?_⟩
    intro pre call post hsplit hfail
    have hdrop : t'.saveCalls.drop (t.saveCalls.length + 1)
        = (rangeSave c (getProfile c data) order
            (c.SaveConfig f data (getProfile c data) t.world).1).2.1 := by
      rw [hcalls, ← List.drop_drop, List.drop_left]
      rfl
    rw [hdrop] at hsplit
    obtain ⟨h1, h2⟩ := rangeSave_failed_call_last c _ order _ pre post call hsplit hfail
    refine ⟨h1, h2, ?_⟩
    have hne : (rangeSave c (getProfile c data) order
        (c.SaveConfig f data (getProfile c data) t.world).1).2.2 ≠ none := by
      rw [h1]; exact hfail
    simp [hkeep hne]

/-- Instance of C4: registry of `api.go` and of `internal.go` visited in source order, the
save of `disk` failing in the cascade towards `"P2"`. -/
theorem saveConfig_cascade_failure_witness :
    (∃ s' r, Api.SaveConfig (sampleCollab diskCascadeFails) Api.init Api.init.ConfSaveFunc
        "live" (some [2]) sampleState = .returned (s', r) ∧
      r = some "save failed" ∧ Api.GetActiveProfile s' = "P1" ∧
      s'.saveCalls.drop (sampleState.saveCalls.length + 1)
        = [⟨"live", Pkg.live, none, "P2", none⟩, ⟨"target", Pkg.target, none, "P2", none⟩,
           ⟨"disk", Pkg.disk, none, "P2", some "save failed"⟩]) := by
  obtain ⟨⟨s', r, hrun, h⟩, _⟩ := saveConfig_cascade_failure (sampleCollab diskCascadeFails)
    Api.init Api.init.ConfSaveFunc "live" Pkg.live (some [2]) sampleState sampleInternalState
    (by decide) (by decide) (by decide)
  have hval := Outcome.returned.inj (hrun.symm.trans
    (rfl : Api.SaveConfig (sampleCollab diskCascadeFails) Api.init Api.init.ConfSaveFunc
        "live" (some [2]) sampleState = .returned _))
  obtain ⟨rfl, rfl⟩ := Prod.mk.inj hval
  obtain ⟨h1, _, h3⟩ := h [⟨"live", Pkg.live, none, "P2", none⟩,
    ⟨"target", Pkg.target, none, "P2", none⟩]
    ⟨"disk", Pkg.disk, none, "P2", some "save failed"⟩ [] (by decide) (by decide)
  exact ⟨_, _, hrun, h1, h3, by decide⟩

/-- Profile no-op (`api.go` and `internal.go`): when the payload's profile equals the active
one, `SaveConfig` on a registered key makes exactly one save call, the call of the function
stored under the key with the payload and the profile, returns the result of that call, and
leaves the active profile unchanged. Which function is stored under a key is fixed by
`init`. -/
theorem saveConfig_same_profile (c : Collab M W) (reg : Registry M)
    (order : List (String × M)) (module : String) (f : M) (data : Option Bytes)
    (s : Api.State M W) (t : Internal.State M W)
    (hreg : reg.ConfSaveFunc.lookup module = some f)
    (hs : getProfile c data = Api.GetActiveProfile s)
    (ht : getProfile c data = t.ModulesStatus.Profile) :
    (∃ s', Api.SaveConfig c reg order module data s
          = .returned (s', (c.SaveConfig f data (getProfile c data) s.world).2) ∧
        s'.saveCalls = s.saveCalls ++ [⟨module, f, data, getProfile c data,
          (c.SaveConfig f data (getProfile c data) s.world).2⟩] ∧
        Api.GetActiveProfile s' = Api.GetActiveProfile s) ∧
    (∃ t', Internal.SaveConfig c reg order module data t
          = .returned (t', (c.SaveConfig f data (getProfile c data) t.world).2) ∧
        t'.saveCalls = t.saveCalls ++ [⟨module, f, data, getProfile c data,
          (c.SaveConfig f data (getProfile c data) t.world).2⟩] ∧
        t'.ModulesStatus = t.ModulesStatus) :=
  ⟨⟨_, saveConfig_same_api c reg order module data s f hreg hs, rfl, rfl⟩,
   ⟨_, saveConfig_same_internal c reg order module data t f hreg ht, rfl, rfl⟩⟩

/-- Instance of the profile no-op: `SaveConfig("disk", data)` of `api.go` with the active
profile `"P1"` in the payload. -/
theorem saveConfig_same_profile_witness :
    ∃ s', Api.SaveConfig (sampleCollab noFailure) Api.init Api.init.ConfSaveFunc "disk"
          (some [1]) sampleState = .returned (s', none) ∧
        s'.saveCalls = sampleState.saveCalls ++ [⟨"disk", Pkg.disk, some [1], "P1", none⟩] ∧
        Api.GetActiveProfile s' = "P1" :=
  (saveConfig_same_profile (sampleCollab noFailure) Api.init Api.init.ConfSaveFunc "disk"
    Pkg.disk (some [1]) sampleState sampleInternalState (by decide) (by decide)
    (by decide)).1

/-- C7. Evaluation of `SaveConfig("ram", data)` of `internal.go` with the active profile
`"P1"` in the payload, in a world where the save of `ram` fails on every call: no cascade is
made and the profile is unchanged, but the one save call made is the save of `disk`, stored
under the key `"ram"`; the save of `ram` is never called and nil is returned instead of the
error of the save of `ram`. -/
theorem saveConfig_ram_same_profile_calls_disk :
    getProfile (sampleCollab ramSaveFails) (some [1])
      = sampleInternalState.ModulesStatus.Profile ∧
    (sampleCollab ramSaveFails).SaveConfig Pkg.ram (some [1]) "P1" 0
      = (0, some "save failed") ∧
    ∃ t', Internal.SaveConfig (sampleCollab ramSaveFails) Internal.init
        Internal.init.ConfSaveFunc "ram" (some [1]) sampleInternalState
          = .returned (t', none) ∧
      t'.saveCalls = [⟨"ram", Pkg.disk, some [1], "P1", none⟩] ∧
      (∀ call ∈ t'.saveCalls, call.fn ≠ Pkg.ram) ∧
      t'.ModulesStatus.Profile = "P1" :=
  ⟨rfl, rfl, _, rfl, rfl, by decide, rfl⟩

/-- C2. Evaluation of `SaveConfig` of `api.go` and of `internal.go` where the module's own save
fails and the payload's profile `"P2"` differs from the active profile `"P1"`: the error is
dropped, the cascade calls are made, nil is returned and `"P2"` becomes active. -/
theorem saveConfig_own_error_dropped :
    (sampleCollab liveRejectsData).SaveConfig Pkg.live (some [2]) "P2" 0
      = (0, some "save failed") ∧
    (∃ s', Api.SaveConfig (sampleCollab liveRejectsData) Api.init Api.init.ConfSaveFunc
        "live" (some [2]) sampleState = .returned (s', none) ∧
      s'.saveCalls.drop sampleState.saveCalls.length
        = [⟨"live", Pkg.live, some [2], "P2", some "save failed"⟩,
           ⟨"live", Pkg.live, none, "P2", none⟩, ⟨"target", Pkg.target, none, "P2", none⟩,
           ⟨"disk", Pkg.disk, none, "P2", none⟩, ⟨"ram", Pkg.ram, none, "P2", none⟩,
           ⟨"cpu", Pkg.cpu, none, "P2", none⟩, ⟨"notify", Pkg.notify, none, "P2", none⟩] ∧
      Api.GetActiveProfile s' = "P2") ∧
    (∃ t', Internal.SaveConfig (sampleCollab liveRejectsData) Internal.init
        Internal.init.ConfSaveFunc "live" (some [2]) sampleInternalState
          = .returned (t', none) ∧
      t'.saveCalls
        = [⟨"live", Pkg.live, some [2], "P2", some "save failed"⟩,
           ⟨"live", Pkg.live, none, "P2", none⟩, ⟨"disk", Pkg.disk, none, "P2", none⟩,
           ⟨"ram", Pkg.disk, none, "P2", none⟩] ∧
      t'.ModulesStatus.Profile = "P2") :=
  ⟨rfl, ⟨_, rfl, rfl, rfl⟩, ⟨_, rfl, rfl, rfl⟩⟩

/-- C10. Evaluation of the registries: in `api.go` every key is bound to the functions of
the module of that name, and so are the keys of `StatusFunc` and `ConfFunc` in `internal.go`;
but the key `"ram"` of `ConfSaveFunc` in `internal.go` is bound to the save of `disk`, and
`SaveConfig("ram", data)` with the active profile in the payload calls the save of `disk`,
not the save of `ram`. -/
theorem internal_ram_bound_to_disk_save :
    (∀ e ∈ Api.init.StatusFunc ++ Api.init.ConfFunc ++ Api.init.ConfSaveFunc,
      e.2.name = e.1) ∧
    (∀ e ∈ Internal.init.StatusFunc ++ Internal.init.ConfFunc, e.2.name = e.1) ∧
    Internal.init.ConfSaveFunc.lookup "ram" = some Pkg.disk ∧
    ∃ t', Internal.SaveConfig (sampleCollab noFailure) Internal.init
        Internal.init.ConfSaveFunc "ram" (some [1]) sampleInternalState
          = .returned (t', none) ∧
      t'.saveCalls = [⟨"ram", Pkg.disk, some [1], "P1", none⟩] :=
  ⟨by decide, by decide, rfl, _, rfl, rfl⟩

/-! ## `LoadNewProfile` -/

theorem loadLoop_not_mem (c : Collab M W) (profile : String) (s : Api.State M W)
    (l : List String) (h : profile ∉ l) :
    Api.loadLoop c profile s l
      = (s, some ("Specified module not found, allowed modules " ++ c.sprintModules)) := by
  induction l with
  | nil => rfl
  | cons p rest ih =>
    have hp : p ≠ profile := fun e => h (by simp [e])
    have hrest : profile ∉ rest := fun e => h (List.mem_cons_of_mem _ e)
    simp [Api.loadLoop, hp, ih hrest]

theorem loadLoop_mem (c : Collab M W) (profile : String) (s : Api.State M W)
    (l : List String) (h : profile ∈ l) :
    Api.loadLoop c profile s l
      = ({ s with
            UserModuleState := { s.UserModuleState with Profile := profile }
            RestartModules := s.RestartModules ++ [⟨"all", true⟩] }, none) := by
  induction l with
  | nil => simp at h
  | cons p rest ih =>
    by_cases hp : p = profile
    · simp [Api.loadLoop, hp]
    · have hrest : profile ∈ rest := by
        rcases List.mem_cons.1 h with e | e
        · exact absurd e.symm hp
        · exact e
      simp [Api.loadLoop, hp, ih hrest]

/-- C8. `LoadNewProfile(name)`: for a name that is not in the list returned by
`setup.GetAllProfiles`, it returns an error and the whole state (module flags, active
profile, signals sent) is unchanged; for a name in the list it returns nil. -/
theorem loadNewProfile_result (c : Collab M W) (name : String) (s : Api.State M W) :
    (name ∉ Api.GetAllProfiles c s →
      (Api.LoadNewProfile c name s).2
          = some ("Specified module not found, allowed modules " ++ c.sprintModules) ∧
        (Api.LoadNewProfile c name s).1 = s) ∧
    (name ∈ Api.GetAllProfiles c s → (Api.LoadNewProfile c name s).2 = none) := by
  constructor
  · intro h
    have e := loadLoop_not_mem c name s (c.GetAllProfiles s.world) h
    simp [Api.LoadNewProfile, e]
  · intro h
    have e := loadLoop_mem c name s (c.GetAllProfiles s.world) h
    simp [Api.LoadNewProfile, e]

/-- Instance of C8: the unknown name `"nonexistent"` and the known name `"P2"`. -/
theorem loadNewProfile_result_witness :
    ((Api.LoadNewProfile (sampleCollab noFailure) "nonexistent" sampleState).2
        = some "Specified module not found, allowed modules [live target disk ram cpu]" ∧
      (Api.LoadNewProfile (sampleCollab noFailure) "nonexistent" sampleState).1
        = sampleState) ∧
    (Api.LoadNewProfile (sampleCollab noFailure) "P2" sampleState).2 = none :=
  ⟨(loadNewProfile_result (sampleCollab noFailure) "nonexistent" sampleState).1 (by decide),
   (loadNewProfile_result (sampleCollab noFailure) "P2" sampleState).2 (by decide)⟩

/-! ## Unregistered identifiers -/

/-- C1, as the claim states it: `GetConfJSON("cpu")` on the registry `{live, disk, ram}` of
`internal.go` calls the nil function of the missing key and panics. -/
theorem getConfJSON_cpu_panics :
    Internal.GetConfJSON (sampleCollab noFailure) Internal.init "cpu" sampleInternalState
      = .nilFuncPanic := by
  decide

/-- C1, amended. For an identifier that is not a key of the registry, `GetStatusJSON`,
`GetConfJSON` and `SaveConfig` (of `api.go` and of `internal.go`) call the nil function and
panic; the existence check is made by the callers `statusHandler` and `configHandler`, which
answer "not found" without calling them and leave the state unchanged. -/
theorem unregistered_module (c : Collab M W) (reg : Registry M) (order : List (String × M))
    (module : String) (data : Option Bytes) (req : Webui.Request)
    (s : Api.State M W) (t : Internal.State M W) :
    (reg.StatusFunc.lookup module = none →
      Api.GetStatusJSON c reg module s = .nilFuncPanic ∧
      Internal.GetStatusJSON c reg module t = .nilFuncPanic ∧
      Webui.statusHandler c reg module s = .returned (s, .notFound)) ∧
    (reg.ConfFunc.lookup module = none →
      Api.GetConfJSON c reg module s = .nilFuncPanic ∧
      Internal.GetConfJSON c reg module t = .nilFuncPanic ∧
      (req.isPost = false →
        Webui.configHandler c reg order req module s = .returned (s, .notFound))) ∧
    (reg.ConfSaveFunc.lookup module = none →
      Api.SaveConfig c reg order module data s = .nilFuncPanic ∧
      Internal.SaveConfig c reg order module data t = .nilFuncPanic ∧
      (req.isPost = true →
        Webui.configHandler c reg order req module s = .returned (s, .notFound))) := by
  refine ⟨?_, ?_, ?_⟩
  · intro h
    simp [Api.GetStatusJSON, Internal.GetStatusJSON, Webui.statusHandler, h]
  · intro h
    refine ⟨by simp [Api.GetConfJSON, h], by simp [Internal.GetConfJSON, h], ?_⟩
    intro hp
    simp [Webui.configHandler, hp, h]
  · intro h
    refine ⟨by simp [Api.SaveConfig, h], by simp [Internal.SaveConfig, h], ?_⟩
    intro hp
    simp [Webui.configHandler, hp, h]

/-- Instance of C1 amended: the identifier `"cpu"` on the registry of `internal.go`, and the
identifier `"gpu"` on the registry of `api.go` behind `statusHandler`. -/
theorem unregistered_module_witness :
    Internal.GetStatusJSON (sampleCollab noFailure) Internal.init "cpu" sampleInternalState
      = .nilFuncPanic ∧
    Webui.statusHandler (sampleCollab noFailure) Api.init "gpu" sampleState
      = .returned (sampleState, .notFound) :=
  ⟨((unregistered_module (sampleCollab noFailure) Internal.init Internal.init.ConfSaveFunc
      "cpu" none ⟨"/module/cpu", false, []⟩ sampleState sampleInternalState).1
      (by decide)).2.1,
   ((unregistered_module (sampleCollab noFailure) Api.init Api.init.ConfSaveFunc
      "gpu" none ⟨"/module/gpu", false, []⟩ sampleState sampleInternalState).1
      (by decide)).2.2⟩

/-! ## The alias `inode` -/

/-- C6, as the claim states it: in `api.go`, `GetStatusJSON("inode")` panics on the missing
key while `GetStatusJSON("disk")` returns the status of `disk`. -/
theorem getStatusJSON_inode_ne_disk :
    Api.GetStatusJSON (sampleCollab noFailure) Api.init "inode" sampleState = .nilFuncPanic ∧
    Api.GetStatusJSON (sampleCollab noFailure) Api.init "disk" sampleState
      = .returned [0, 2, 0] := by
  decide

/-- C6, amended. The alias `inode` exists in the state tracker only: for every state,
`ModuleStatus("inode")` equals `ModuleStatus("disk")` (in `api.go` and `internal.go`);
`inode` is not a key of the registries, so `GetStatusJSON("inode")` calls the nil function. -/
theorem inode_alias (c : Collab Pkg W) (s : Api.State Pkg W) (t : Internal.State Pkg W) :
    Api.ModuleStatus "inode" s = Api.ModuleStatus "disk" s ∧
    Internal.ModuleStatus "inode" t = Internal.ModuleStatus "disk" t ∧
    Api.GetStatusJSON c Api.init "inode" s = .nilFuncPanic ∧
    Internal.GetStatusJSON c Internal.init "inode" t = .nilFuncPanic :=
  ⟨rfl, rfl, rfl, rfl⟩

/-! ## Profile consistency across `SaveConfig` and `LoadNewProfile` -/

theorem lastLoaded_append_of_loaded [DecidableEq M] (old new : List (SaveCall M)) (g : M)
    (p : String)
    (hall : ∀ call ∈ new, call.fn = g → call.err = none → call.profile = p)
    (hex : ∃ call ∈ new, call.fn = g ∧ call.err = none) :
    lastLoaded (old ++ new) g = some p := by
  obtain ⟨x, hx, hxg, hxe⟩ := hex
  have hmem : x ∈ new.filter fun call => decide (call.fn = g) && call.err.isNone := by
    simp [List.mem_filter, hx, hxg, hxe]
  rcases hlast : (new.filter fun call => decide (call.fn = g) && call.err.isNone).getLast?
    with _ | y
  · rw [List.getLast?_eq_none_iff] at hlast
    rw [hlast] at hmem
    simp at hmem
  · have hy := List.mem_of_getLast?_eq_some hlast
    rw [List.mem_filter] at hy
    obtain ⟨hy1, hy2⟩ := hy
    simp only [Bool.and_eq_true, decide_eq_true_eq, Option.isNone_iff_eq_none] at hy2
    simp [lastLoaded, List.filter_append, hlast, hall y hy1 hy2.1 hy2.2]

theorem lastLoaded_append_of_not_loaded [DecidableEq M] (old new : List (SaveCall M)) (g : M)
    (hno : ∀ call ∈ new, ¬ (call.fn = g ∧ call.err = none)) :
    lastLoaded (old ++ new) g = lastLoaded old g := by
  have hnil : (new.filter fun call => decide (call.fn = g) && call.err.isNone) = [] := by
    rw [List.filter_eq_nil_iff]
    intro call hcall
    simpa using hno call hcall
  simp [lastLoaded, List.filter_append, hnil]

/-- C5, as the claim states it: starting from a consistent state of `api.go`, a cascade
that fails at `disk` leaves `live` and `target` on `"P2"` while `"P1"` stays active, and
`LoadNewProfile("P2")` makes `"P2"` active although no module has loaded it. -/
theorem profile_consistency_broken :
    ProfileConsistent Api.init sampleState ∧
    (∃ s', Api.SaveConfig (sampleCollab diskCascadeFails) Api.init Api.init.ConfSaveFunc
        "live" (some [2]) sampleState = .returned (s', some "save failed") ∧
      Api.GetActiveProfile s' = "P1" ∧ lastLoaded s'.saveCalls Pkg.live = some "P2" ∧
      ¬ ProfileConsistent Api.init s') ∧
    Api.GetActiveProfile (Api.LoadNewProfile (sampleCollab noFailure) "P2" sampleState).1
      = "P2" ∧
    ¬ ProfileConsistent Api.init
      (Api.LoadNewProfile (sampleCollab noFailure) "P2" sampleState).1 := by
  refine ⟨?_, ⟨_, rfl, rfl, ?_, ?_⟩, rfl, ?_⟩
  · unfold ProfileConsistent; decide
  · decide
  · unfold ProfileConsistent; decide
  · unfold ProfileConsistent; decide

/-- C5, amended. Profile consistency is preserved by `SaveConfig` on a registered module
whenever it returns nil or the payload's profile is the active one, and by `LoadNewProfile`
whenever the name is unknown or is the active profile. -/
theorem profile_consistency_preserved [DecidableEq M] (c : Collab M W) (reg : Registry M)
    (order : List (String × M)) (module : String) (f : M) (data : Option Bytes)
    (name : String) (s : Api.State M W)
    (hperm : order.Perm reg.ConfSaveFunc)
    (hreg : reg.ConfSaveFunc.lookup module = some f)
    (hinv : ProfileConsistent reg s) :
    (∃ s' r, Api.SaveConfig c reg order module data s = .returned (s', r) ∧
      (r = none ∨ getProfile c data = Api.GetActiveProfile s → ProfileConsistent reg s')) ∧
    (name ∉ Api.GetAllProfiles c s ∨ name = Api.GetActiveProfile s →
      ProfileConsistent reg (Api.LoadNewProfile c name s).1) := by
  constructor
  · by_cases hsame : getProfile c data = s.UserModuleState.Profile
    · refine ⟨_, _, saveConfig_same_api c reg order module data s f hreg hsame, ?_⟩
      intro _ e he
      show lastLoaded (s.saveCalls ++ [_]) e.2 = some s.UserModuleState.Profile
      by_cases hown : f = e.2 ∧ (c.SaveConfig f data (getProfile c data) s.world).2 = none
      · apply lastLoaded_append_of_loaded
        · intro call hcall _ _
          rw [List.mem_singleton] at hcall
          rw [hcall]
          exact hsame
        · exact ⟨_, List.mem_singleton.2 rfl, hown.1, hown.2⟩
      · rw [lastLoaded_append_of_not_loaded]
        · exact hinv e he
        · intro call hcall
          rw [List.mem_singleton] at hcall
          rw [hcall]
          exact hown
    · obtain ⟨s', hrun, hcalls, hprof, _⟩ :=
        saveConfig_switch_api c reg order module data s f hreg hsame
      refine ⟨s', _, hrun, ?_⟩
      intro hor
      have hnone : (rangeSave c (getProfile c data) order
          (c.SaveConfig f data (getProfile c data) s.world).1).2.2 = none := by
        rcases hor with h | h
        · exact h
        · exact absurd h hsame
      have hmap := rangeSave_of_none c _ order _ hnone
      intro e he
      rw [hcalls, hprof hnone, hmap]
      apply lastLoaded_append_of_loaded
      · intro call hcall _ _
        rcases List.mem_cons.1 hcall with h | h
        · rw [h]
        · obtain ⟨x, _, rfl⟩ := List.mem_map.1 h
          rfl
      · exact ⟨okCall (getProfile c data) e,
          List.mem_cons_of_mem _ (List.mem_map.2 ⟨e, (hperm.mem_iff).2 he, rfl⟩), rfl, rfl⟩
  · intro hor
    by_cases hmem : name ∈ c.GetAllProfiles s.world
    · have hname : name = s.UserModuleState.Profile := by
        rcases hor with h | h
        · exact absurd hmem h
        · exact h
      have e := loadLoop_mem c name s (c.GetAllProfiles s.world) hmem
      intro x hx
      simp only [Api.LoadNewProfile, e]
      rw [hname]
      exact hinv x hx
    · have e := loadLoop_not_mem c name s (c.GetAllProfiles s.world) hmem
      simp only [Api.LoadNewProfile, e]
      exact hinv

/-- Instance of C5 amended: a full switch from `"P1"` to `"P2"` on the registry of `api.go`
and a load of the unknown profile `"nonexistent"`. -/
theorem profile_consistency_preserved_witness :
    (∃ s', Api.SaveConfig (sampleCollab noFailure) Api.init Api.init.ConfSaveFunc
        "live" (some [2]) sampleState = .returned (s', none) ∧
      Api.GetActiveProfile s' = "P2" ∧ ProfileConsistent Api.init s') ∧
    ProfileConsistent Api.init
      (Api.LoadNewProfile (sampleCollab noFailure) "nonexistent" sampleState).1 := by
  obtain ⟨⟨s', r, hrun, h⟩, hload⟩ := profile_consistency_preserved (sampleCollab noFailure)
    Api.init Api.init.ConfSaveFunc "live" Pkg.live (some [2]) "nonexistent" sampleState
    (List.Perm.refl _) (by decide) (by unfold ProfileConsistent; decide)
  have hval := Outcome.returned.inj (hrun.symm.trans
    (rfl : Api.SaveConfig (sampleCollab noFailure) Api.init Api.init.ConfSaveFunc
        "live" (some [2]) sampleState = .returned _))
  obtain ⟨rfl, rfl⟩ := Prod.mk.inj hval
  exact ⟨⟨_, hrun, rfl, h (Or.inl rfl)⟩, hload (Or.inl (by decide))⟩

/-! ## Transport gating -/

theorem statusHandler_statusJSON (c : Collab M W) (reg : Registry M) (module m : String)
    (s s' : Api.State M W) (body : Bytes)
    (h : Webui.statusHandler c reg module s = .returned (s', .statusJSON m body)) :
    module = m := by
  unfold Webui.statusHandler at h
  split at h
  · split at h
    · simp at h
      exact h.2.1
    · simp at h
    · simp at h
  · simp at h

theorem configHandler_not_statusJSON (c : Collab M W) (reg : Registry M)
    (order : List (String × M)) (req : Webui.Request) (module m : String)
    (s s' : Api.State M W) (body : Bytes) :
    Webui.configHandler c reg order req module s ≠ .returned (s', .statusJSON m body) := by
  intro h
  unfold Webui.configHandler at h
  split at h
  · split at h
    · split at h <;> simp at h
    · simp at h
  · split at h
    · split at h <;> simp at h
    · simp at h

theorem profileHandler_not_statusJSON (c : Collab M W) (bodyString : Bytes → String)
    (req : Webui.Request) (m : String) (s s' : Api.State M W) (body : Bytes) :
    Webui.profileHandler c bodyString req s ≠ (s', .statusJSON m body) := by
  intro h
  unfold Webui.profileHandler at h
  split at h
  · cases h
  · cases h

theorem moduleStatusHandler_not_statusJSON (req : Webui.Request) (module m : String)
    (s s' : Api.State M W) (body : Bytes) :
    Webui.moduleStatusHandler req module s ≠ (s', .statusJSON m body) := by
  intro h
  unfold Webui.moduleStatusHandler at h
  split at h
  · cases h
  · split at h
    · cases h
    · cases h

theorem templateHandler_not_statusJSON (tmpl m : String) (body : Bytes) :
    Webui.templateHandler tmpl ≠ .statusJSON m body := by
  intro h
  unfold Webui.templateHandler at h
  split at h
  · cases h
  · cases h

theorem splitN_settings (m : String) :
    Webui.SplitN ("/settings/" ++ m) '/' 3 = ["", "settings", m] := by
  have h : ("/settings/" ++ m).toList
      = '/' :: 's' :: 'e' :: 't' :: 't' :: 'i' :: 'n' :: 'g' :: 's' :: '/' :: m.toList := by
    simp [String.toList]
  simp [Webui.SplitN, h, Webui.splitN, List.span, List.span.loop]

/-- C9, as the claim states it: in a state where `disk` is not running, a GET of
`/settings/disk` is answered with the config JSON of `disk`. -/
theorem settings_route_not_gated :
    Api.ModuleStatus "disk" sampleState = false ∧
    Webui.requestHandler (sampleCollab noFailure) Api.init Api.init.ConfSaveFunc
        (fun _ => "") ⟨"/settings/disk", false, []⟩ sampleState
      = .returned (sampleState, .confJSON "disk" [1, 2, 0]) :=
  ⟨rfl, rfl⟩

/-- C9, amended. For every request and every module name `m` other than `"main"` for which
`ModuleStatus(m)` is false, `requestHandler` never responds with the status JSON of `m`
(the `/module/<m>` route is gated); the GET `/settings/<m>` route is not gated: it answers
with the config JSON of `m` for every key `m` of `ConfFunc`. -/
theorem requestHandler_gating (c : Collab M W) (reg : Registry M) (order : List (String × M))
    (bodyString : Bytes → String) (req : Webui.Request) (m : String) (s : Api.State M W) :
    (m ≠ "main" → Api.ModuleStatus m s = false →
      ∀ s' body, Webui.requestHandler c reg order bodyString req s
        ≠ .returned (s', .statusJSON m body)) ∧
    (∀ f, reg.ConfFunc.lookup m = some f →
      Webui.requestHandler c reg order bodyString ⟨"/settings/" ++ m, false, req.postBody⟩ s
        = .returned (s, .confJSON m (c.GetConfJSON f s.world))) := by
  constructor
  · intro hm hoff s' body h
    unfold Webui.requestHandler at h
    generalize Webui.SplitN req.path '/' 3 = tp at h
    simp only at h
    by_cases hlen : tp.length = 2
    · rw [if_pos hlen] at h
      cases h
    rw [if_neg hlen] at h
    rcases h1 : tp[1]? with _ | t1
    · simp only [Webui.index, Webui.andThen, h1] at h
      cases h
    rcases h2 : tp[2]? with _ | t2
    · simp only [Webui.index, Webui.andThen, h1, h2] at h
      split_ifs at h
      all_goals first
        | cases h
        | exact profileHandler_not_statusJSON c bodyString req m s s' body
            (Outcome.returned.inj h)
    simp only [Webui.index, Webui.andThen, h1, h2] at h
    by_cases hp1 : t1 = "static"
    · rw [if_pos hp1] at h
      cases h
    rw [if_neg hp1] at h
    by_cases hp2 : t1 = "settings"
    · rw [if_pos hp2] at h
      exact configHandler_not_statusJSON c reg order req t2 m s s' body h
    rw [if_neg hp2] at h
    by_cases hp3 : t1 = "preferences"
    · rw [if_pos hp3] at h
      cases h
    rw [if_neg hp3] at h
    by_cases hp4 : t1 = "description"
    · rw [if_pos hp4] at h
      by_cases hsuf : t2.endsWith "html" = true
      · rw [if_pos hsuf] at h
        cases h
      · rw [if_neg hsuf] at h
        cases h
    rw [if_neg hp4] at h
    by_cases hp5 : t1 = "moduleStatus"
    · rw [if_pos hp5] at h
      exact moduleStatusHandler_not_statusJSON req t2 m s s' body (Outcome.returned.inj h)
    rw [if_neg hp5] at h
    by_cases hp6 : t1 = "profile"
    · rw [if_pos hp6] at h
      exact profileHandler_not_statusJSON c bodyString req m s s' body (Outcome.returned.inj h)
    rw [if_neg hp6] at h
    by_cases hgate : (Api.ModuleStatus t2 s || decide (t2 = "main")) = true
    · rw [if_pos hgate] at h
      by_cases hp7 : t1 = "module"
      · rw [if_pos hp7] at h
        have ht2 := statusHandler_statusJSON c reg t2 m s s' body h
        rw [ht2] at hgate
        simp [hoff, hm] at hgate
      rw [if_neg hp7] at h
      by_cases hp8 : t1 = "template"
      · rw [if_pos hp8] at h
        exact templateHandler_not_statusJSON t2 m body (Prod.mk.inj (Outcome.returned.inj h)).2
      · rw [if_neg hp8] at h
        cases h
    · rw [if_neg hgate] at h
      cases h
  · intro f hf
    unfold Webui.requestHandler
    rw [splitN_settings]
    simp [Webui.index, Webui.andThen, Webui.configHandler, Api.GetConfJSON, hf]

/-- Instance of C9 amended: `disk` is not running in the sample state and `live` is;
`/module/disk` does not answer with the status JSON of `disk`, while `/settings/disk` and
`/settings/live` answer with the config JSON. -/
theorem requestHandler_gating_witness :
    Webui.requestHandler (sampleCollab noFailure) Api.init Api.init.ConfSaveFunc
        (fun _ => "") ⟨"/module/disk", false, []⟩ sampleState
      ≠ .returned (sampleState, .statusJSON "disk" [0, 2, 0]) ∧
    Webui.requestHandler (sampleCollab noFailure) Api.init Api.init.ConfSaveFunc
        (fun _ => "") ⟨"/settings/" ++ "disk", false, []⟩ sampleState
      = .returned (sampleState, .confJSON "disk" [1, 2, 0]) ∧
    Webui.requestHandler (sampleCollab noFailure) Api.init Api.init.ConfSaveFunc
        (fun _ => "") ⟨"/settings/" ++ "live", false, []⟩ sampleState
      = .returned (sampleState, .confJSON "live" [1, 0, 0]) :=
  have h := requestHandler_gating (sampleCollab noFailure) Api.init Api.init.ConfSaveFunc
    (fun _ => "") ⟨"/module/disk", false, []⟩ "disk" sampleState
  have hlive := requestHandler_gating (sampleCollab noFailure) Api.init Api.init.ConfSaveFunc
    (fun _ => "") ⟨"/module/live", false, []⟩ "live" sampleState
  ⟨h.1 (by decide) rfl sampleState [0, 2, 0], h.2 Pkg.disk rfl, hlive.2 Pkg.live rfl⟩

end HealthMonitor
